import Mathlib

/-! Verification of the GardenerHelper shoot-lifecycle client
(components/cluster/library/python/lib/gardener.py).

The Python class is shallowly embedded: every remote call is represented by
the value the server returns for it (or the exception it raises), supplied as
an explicit argument or as a sequence indexed by attempt number, and each
method becomes a pure Lean function of those outcomes.  Effects the claims do
not mention (logging via print, sleeping) are erased; wall-clock time in the
polling loops is modelled by the iteration count, iteration k starting at
elapsed time k * interval. -/

/-- Embedding of the dictionary stored under the "lastOperation" key of a
shoot status: `state` is `some v` when the "state" key is present with string
value `v`, and `none` when the key is absent. -/
structure LastOperation where
  state : Option String
deriving DecidableEq

/-- Embedding of the dictionary stored under the "status" key of a shoot
resource: `health` models the optional free-form "health" entry and
`lastOperation` the optional "lastOperation" entry. -/
structure ShootStatus where
  health : Option String
  lastOperation : Option LastOperation
deriving DecidableEq

/-- Embedding of a shoot resource dictionary as returned by the server.  Only
the "status" entry is inspected by the operations under verification; the
metadata and spec entries are never read by them, so they are not modelled.
A resource dictionary returned by the API always carries metadata, hence is
a nonempty, truthy Python dict; `Shoot` models such a truthy dict. -/
structure Shoot where
  status : Option ShootStatus
deriving DecidableEq

/-- Outcome of one raw API get call on the shoots custom resource: either the
server returns the resource, or the kubernetes client raises an ApiException
carrying an HTTP status code. -/
inductive ApiResponse where
  | success : Shoot → ApiResponse
  | apiException : Nat → ApiResponse
deriving DecidableEq

/-- Embedding of the Python string method lower(), used by the status polling
code for its case-insensitive comparison of lastOperation.state. -/
def pyLower (s : String) : String := String.mk (s.data.map Char.toLower)

/-- Embedding of GardenerHelper.get_shoot (gardener.py lines 221-242).  The
raw get call the method performs is represented by its outcome `r`.  An
ApiException with status 404 is converted to `none`; any other ApiException
is re-raised (modelled as `Except.error code`); a successful response yields
the resource. -/
def get_shoot (r : ApiResponse) : Except Nat (Option Shoot) :=
  match r with
  | ApiResponse.success s => Except.ok (some s)
  | ApiResponse.apiException code =>
      if code = 404 then Except.ok none else Except.error code

/-- Embedding of GardenerHelper.check_shoot_health (gardener.py lines
315-335).  The argument is the value the method obtains from its get_shoot
call (`none` when no resource was observed).  Python evaluates
`if health:` on the value of the "health" entry, so a present entry holding
the empty string is falsy and is skipped exactly like an absent entry; a
present "lastOperation" entry without a "state" key yields "Unknown" via
dict.get. -/
def check_shoot_health (shoot : Option Shoot) : String :=
  match shoot with
  | none => "No status available"
  | some s =>
    match s.status with
    | none => "No status available"
    | some st =>
      match st.health with
      | some h =>
        if h ≠ "" then h
        else
          match st.lastOperation with
          | some lo => lo.state.getD "Unknown"
          | none => "Status available but no health info"
      | none =>
        match st.lastOperation with
        | some lo => lo.state.getD "Unknown"
        | none => "Status available but no health info"

/-- Loop body of GardenerHelper.safe_call_with_retries (gardener.py lines
28-44).  `func j` is the outcome of the j-th invocation of the wrapped
zero-argument callable (`Except.error e` models the callable raising an
exception rendered as `e`).  The fuel argument is the number of loop
iterations still allowed (max_retries minus retries) and `attempt` counts the
invocations already made; the second component of the result is the total
number of invocations performed.  When the fuel runs out the Python code
raises a fresh generic exception with the fixed message below — the caught
exceptions are only printed, never re-raised or attached to it. -/
def retryLoop {α : Type} (func : Nat → Except String α) (attempt : Nat) :
    Nat → Except String α × Nat
  | 0 => (Except.error "Max retries exceeded. Aborting operation.", attempt)
  | n + 1 =>
    match func attempt with
    | Except.ok v => (Except.ok v, attempt + 1)
    | Except.error _ => retryLoop func (attempt + 1) n

/-- Embedding of GardenerHelper.safe_call_with_retries: run the retry loop
starting from zero invocations with max_retries iterations available.
Returns the overall outcome together with the number of invocations made. -/
def safe_call_with_retries {α : Type} (func : Nat → Except String α)
    (max_retries : Nat) : Except String α × Nat :=
  retryLoop func 0 max_retries

/-- Operation used to witness C6: fails on invocations 0 and 1, succeeds with
42 from invocation 2 on. -/
def failTwiceThenSucceed : Nat → Except String Nat :=
  fun j => if j < 2 then Except.error "transient failure" else Except.ok 42

/-- Resource refuting C1 as stated: the "health" entry is present but holds
the empty string, and lastOperation.state is "Succeeded". -/
def c1Shoot : Shoot := ⟨some ⟨some "", some ⟨some "Succeeded"⟩⟩⟩

/-- Number of iterations the polling loops perform.  The Python loops run
`while time.time() - start_time < timeout`, sleeping `interval` seconds after
every poll, so with zero call latency iteration k starts at elapsed time
k * interval and runs exactly when k * interval < timeout; the iteration
count is therefore the ceiling of timeout / interval.  A positive interval
is assumed (the code defaults are 300 and 10). -/
def numPolls (timeout interval : Nat) : Nat := (timeout + interval - 1) / interval

/-- Result of poll_shoot_deletion_status: the Python method returns either
True (deleted) or the string "in-progress". -/
inductive DeletionStatus where
  | deleted : DeletionStatus
  | inProgress : DeletionStatus
deriving DecidableEq

/-- Loop body of GardenerHelper.poll_shoot_deletion_status (gardener.py lines
280-313).  `resp k` is the outcome of the raw get call in iteration k.  A
successful response means the resource still exists and the loop keeps
going; an ApiException with status 404 returns True (deleted); any other
ApiException is only printed and the loop keeps going.  The fuel is the
number of iterations remaining before the timeout. -/
def deletionLoop (resp : Nat → ApiResponse) (k : Nat) : Nat → DeletionStatus
  | 0 => DeletionStatus.inProgress
  | n + 1 =>
    match resp k with
    | ApiResponse.success _ => deletionLoop resp (k + 1) n
    | ApiResponse.apiException code =>
      if code = 404 then DeletionStatus.deleted
      else deletionLoop resp (k + 1) n

/-- Embedding of GardenerHelper.poll_shoot_deletion_status: run the deletion
loop from iteration 0 for the number of iterations the timeout allows. -/
def poll_shoot_deletion_status (resp : Nat → ApiResponse)
    (timeout interval : Nat) : DeletionStatus :=
  deletionLoop resp 0 (numPolls timeout interval)

/-- Response sequence witnessing C4: the resource is first returned, then a
flaky 500 error occurs, then the server reports 404. -/
def deletionResp : Nat → ApiResponse :=
  fun k => if k = 0 then ApiResponse.success ⟨none⟩
    else if k = 1 then ApiResponse.apiException 500
    else ApiResponse.apiException 404

/-- Result of poll_shoot_status: the Python method returns True (succeeded),
False (failed) or the string "in-progress". -/
inductive PollOutcome where
  | succeeded : PollOutcome
  | failed : PollOutcome
  | inProgress : PollOutcome
deriving DecidableEq

/-- Loop body of GardenerHelper.poll_shoot_status (gardener.py lines
252-278).  Iteration k applies get_shoot to the raw outcome `resp k`; a
non-404 ApiException propagates out of the loop (get_shoot re-raises it and
poll_shoot_status catches nothing).  When a resource with a status and a
lastOperation is present, its state — defaulted to "Progressing" when the
"state" key is missing — decides: "succeeded" after lowercasing returns
True, "failed" returns False, anything else keeps polling, as does a
missing resource, status or lastOperation.  The fuel is the number of
iterations remaining before the timeout. -/
def statusLoop (resp : Nat → ApiResponse) (k : Nat) : Nat → Except Nat PollOutcome
  | 0 => Except.ok PollOutcome.inProgress
  | n + 1 =>
    match get_shoot (resp k) with
    | Except.error code => Except.error code
    | Except.ok none => statusLoop resp (k + 1) n
    | Except.ok (some s) =>
      match s.status with
      | none => statusLoop resp (k + 1) n
      | some st =>
        match st.lastOperation with
        | none => statusLoop resp (k + 1) n
        | some lo =>
          if pyLower (lo.state.getD "Progressing") = "succeeded" then
            Except.ok PollOutcome.succeeded
          else if pyLower (lo.state.getD "Progressing") = "failed" then
            Except.ok PollOutcome.failed
          else statusLoop resp (k + 1) n

/-- Embedding of GardenerHelper.poll_shoot_status: run the status loop from
iteration 0 for the number of iterations the timeout allows. -/
def poll_shoot_status (resp : Nat → ApiResponse) (timeout interval : Nat) :
    Except Nat PollOutcome :=
  statusLoop resp 0 (numPolls timeout interval)

/-- Classification of what one status-poll iteration observes, mirroring the
branch structure of the loop body. -/
inductive Obs where
  | terminalSucceeded : Obs
  | terminalFailed : Obs
  | transientObs : Obs
  | raisedObs : Nat → Obs
deriving DecidableEq

/-- What the status loop observes on one raw response, following exactly the
branches of the loop body. -/
def statusObservation (r : ApiResponse) : Obs :=
  match get_shoot r with
  | Except.error code => Obs.raisedObs code
  | Except.ok none => Obs.transientObs
  | Except.ok (some s) =>
    match s.status with
    | none => Obs.transientObs
    | some st =>
      match st.lastOperation with
      | none => Obs.transientObs
      | some lo =>
        if pyLower (lo.state.getD "Progressing") = "succeeded" then
          Obs.terminalSucceeded
        else if pyLower (lo.state.getD "Progressing") = "failed" then
          Obs.terminalFailed
        else Obs.transientObs

/-- The response carries a resource whose lastOperation state — read with the
default "Progressing" when the "state" key is missing, then lowercased —
equals `target`. -/
def observesState (r : ApiResponse) (target : String) : Prop :=
  ∃ s st lo, r = ApiResponse.success s ∧ s.status = some st ∧
    st.lastOperation = some lo ∧ pyLower (lo.state.getD "Progressing") = target

/-- The iteration observes a terminal state, succeeded or failed. -/
def isTerminalObs (r : ApiResponse) : Prop :=
  statusObservation r = Obs.terminalSucceeded ∨
    statusObservation r = Obs.terminalFailed

/-- Fake backend witnessing C5: no status for the first two polls, then a
resource whose lastOperation state is "Succeeded". -/
def statusResp : Nat → ApiResponse :=
  fun k => if k < 2 then ApiResponse.success ⟨none⟩
    else ApiResponse.success ⟨some ⟨none, some ⟨some "Succeeded"⟩⟩⟩

/-- Annotation key delete_shoot patches in before deleting. -/
def deletion_confirm_key : String := "confirmation.gardener.cloud/deletion"

/-- Value the confirmation entry is set to. -/
def deletion_confirm_value : String := "true"

/-- A remote call delete_shoot can issue: the merge patch adding the
confirmation entry (carrying its body) or the delete request. -/
inductive ApiCall where
  | patchCall : List (String × String) → ApiCall
  | deleteCall : ApiCall
deriving DecidableEq

/-- Embedding of GardenerHelper.delete_shoot (gardener.py lines 337-382).
The two remote calls are represented by their outcomes; the result is the
list of calls actually issued, in order, together with the overall outcome.
The method first patches the resource with the confirmation entry, printing
and re-raising a patch failure before the delete call is ever reached; only
when the patch succeeded does it issue the non-blocking delete request,
re-raising a failure of that too. -/
def delete_shoot (patchResult deleteResult : Except String Unit) :
    List ApiCall × Except String Unit :=
  match patchResult with
  | Except.error e =>
    ([ApiCall.patchCall [(deletion_confirm_key, deletion_confirm_value)]],
      Except.error e)
  | Except.ok _ =>
    match deleteResult with
    | Except.error e =>
      ([ApiCall.patchCall [(deletion_confirm_key, deletion_confirm_value)],
        ApiCall.deleteCall], Except.error e)
    | Except.ok _ =>
      ([ApiCall.patchCall [(deletion_confirm_key, deletion_confirm_value)],
        ApiCall.deleteCall], Except.ok ())

/-- Abstraction of the file-system state queried through os.path: which
paths exist and which of them are directories. -/
structure FS where
  pathExists : String → Bool
  isDir : String → Bool

/-- Fixed provider list the source scans when falling back to another
provider's manifest (gardener.py line 160). -/
def knownProviders : List String := ["aws", "azure", "gcp"]

/-- Embedding of GardenerHelper.select_shoot_template (gardener.py lines
103-171).  The provider detection performed by determine_cloud_provider is
represented by its result `provider_opt` (None, or the detected string, with
Python falsiness of the empty string respected) and the script-relative base
directory by `base_dir`; path joining is plain string concatenation, path
normalisation being irrelevant on the abstract paths used here.  Error
messages are abbreviated forms of the raised ValueError and
FileNotFoundError messages. -/
def select_shoot_template (fs : FS) (base_dir : String)
    (provider_opt : Option String) : Except String String :=
  match provider_opt with
  | none =>
    Except.error "Cloud provider could not be determined from context."
  | some provider_type =>
    if provider_type = "" then
      Except.error "Cloud provider could not be determined from context."
    else
      let tdir := base_dir ++ "/deployments/cluster/templates"
      if fs.pathExists tdir && fs.isDir tdir then
        let template_path := tdir ++ "/shoot-" ++ provider_type ++ ".yml"
        if fs.pathExists template_path then
          Except.ok template_path
        else
          let generic_template := tdir ++ "/shoot.yml"
          if fs.pathExists generic_template then
            Except.ok generic_template
          else
            match knownProviders.find?
                (fun p => fs.pathExists (tdir ++ "/shoot-" ++ p ++ ".yml")) with
            | some p => Except.ok (tdir ++ "/shoot-" ++ p ++ ".yml")
            | none =>
              Except.error
                ("Could not find template for provider " ++ provider_type)
      else
        let shoot_yml_path := base_dir ++ "/deployments/cluster/shoot.yml"
        if fs.pathExists shoot_yml_path then
          Except.ok shoot_yml_path
        else
          Except.error "Could not find templates directory or shoot.yml."

/-- File system refuting C7 as stated: the templates directory exists and
contains only the manifest of the provider "openstack", a provider outside
the fixed fallback list the code scans. -/
def c7FS : FS where
  pathExists := fun p =>
    p == "base/deployments/cluster/templates" ||
    p == "base/deployments/cluster/templates/shoot-openstack.yml"
  isDir := fun p => p == "base/deployments/cluster/templates"

/-- File system witnessing C7 (amended): the aws manifest is present in the
templates directory. -/
def c7WitnessFS : FS where
  pathExists := fun p =>
    p == "base/deployments/cluster/templates" ||
    p == "base/deployments/cluster/templates/shoot-aws.yml"
  isDir := fun p => p == "base/deployments/cluster/templates"

/-- When every remaining invocation fails, the retry loop ends with the fixed
generic message after performing exactly the remaining invocations. -/
theorem retryLoop_all_fail {α : Type} (func : Nat → Except String α)
    (attempt n : Nat) (h : ∀ j, j < n → ∃ e, func (attempt + j) = Except.error e) :
    retryLoop func attempt n =
      (Except.error "Max retries exceeded. Aborting operation.", attempt + n) := by
  induction n generalizing attempt with
  | zero => simp [retryLoop]
  | succ n ih =>
    obtain ⟨e, he⟩ := h 0 n.succ_pos
    rw [Nat.add_zero] at he
    have hrest : ∀ j, j < n → ∃ e2, func (attempt + 1 + j) = Except.error e2 := by
      intro j hj
      obtain ⟨e2, he2⟩ := h (j + 1) (by omega)
      exact ⟨e2, by rw [show attempt + 1 + j = attempt + (j + 1) by omega]; exact he2⟩
    have harith : attempt + 1 + n = attempt + (n + 1) := by omega
    rw [show n + 1 = Nat.succ n from rfl, retryLoop, he, ih (attempt + 1) hrest, harith]

/-- C2 counterexample: two operations whose attempts fail with different
messages produce the very same raised exception value, whose fixed text
mentions neither message — so the exception raised after exhausting retries
does not carry the failure from the last attempt. -/
theorem C2_counterexample :
    safe_call_with_retries (fun _ => (Except.error "disk failure" : Except String Nat)) 2 =
      safe_call_with_retries (fun _ => (Except.error "network failure" : Except String Nat)) 2 ∧
    safe_call_with_retries (fun _ => (Except.error "disk failure" : Except String Nat)) 2 =
      (Except.error "Max retries exceeded. Aborting operation.", 2) :=
  ⟨rfl, rfl⟩

/-- C2 (amended): when every attempt fails, safe_call_with_retries raises a
generic exception with the fixed message "Max retries exceeded. Aborting
operation." after exactly max_retries invocations; the raised value is a
constant independent of the failures, so it does not carry the last one. -/
theorem C2_retries_exhausted_generic {α : Type} (func : Nat → Except String α)
    (max_retries : Nat) (h : ∀ j, j < max_retries → ∃ e, func j = Except.error e) :
    safe_call_with_retries func max_retries =
      (Except.error "Max retries exceeded. Aborting operation.", max_retries) := by
  have h0 : ∀ j, j < max_retries → ∃ e, func (0 + j) = Except.error e := by
    intro j hj
    simpa using h j hj
  simpa [safe_call_with_retries] using retryLoop_all_fail func 0 max_retries h0

/-- Witness for C2 (amended) at a concrete always-failing operation. -/
theorem C2_retries_exhausted_generic_witness :
    safe_call_with_retries (fun _ => (Except.error "boom" : Except String Nat)) 3 =
      (Except.error "Max retries exceeded. Aborting operation.", 3) :=
  C2_retries_exhausted_generic (fun _ => Except.error "boom") 3
    (fun _ _ => ⟨"boom", rfl⟩)

/-- C6: an operation that fails on its first two invocations and succeeds on
the third makes safe_call_with_retries return the success value after exactly
3 invocations under max_retries = 3, and raise the generic retries-exhausted
exception after exactly 2 invocations under max_retries = 2. -/
theorem C6_fail_twice_then_succeed {α : Type} (func : Nat → Except String α)
    (v : α) (h0 : ∃ e, func 0 = Except.error e) (h1 : ∃ e, func 1 = Except.error e)
    (h2 : func 2 = Except.ok v) :
    safe_call_with_retries func 3 = (Except.ok v, 3) ∧
    safe_call_with_retries func 2 =
      (Except.error "Max retries exceeded. Aborting operation.", 2) := by
  obtain ⟨e0, he0⟩ := h0
  obtain ⟨e1, he1⟩ := h1
  constructor
  · show retryLoop func 0 3 = _
    rw [show (3 : Nat) = Nat.succ 2 from rfl, retryLoop, he0]
    rw [show (2 : Nat) = Nat.succ 1 from rfl, retryLoop, he1]
    rw [show (1 : Nat) = Nat.succ 0 from rfl, retryLoop, h2]
  · show retryLoop func 0 2 = _
    rw [show (2 : Nat) = Nat.succ 1 from rfl, retryLoop, he0]
    rw [show (1 : Nat) = Nat.succ 0 from rfl, retryLoop, he1]
    rw [retryLoop]

/-- Witness for C6 at the concrete fail-fail-succeed operation. -/
theorem C6_fail_twice_then_succeed_witness :
    safe_call_with_retries failTwiceThenSucceed 3 = (Except.ok 42, 3) ∧
    safe_call_with_retries failTwiceThenSucceed 2 =
      (Except.error "Max retries exceeded. Aborting operation.", 2) :=
  C6_fail_twice_then_succeed failTwiceThenSucceed 42
    ⟨"transient failure", rfl⟩ ⟨"transient failure", rfl⟩ rfl

/-- C8: get_shoot returns none exactly when the server responds 404, re-raises
every other ApiException unchanged, and never turns a 404 into an error. -/
theorem C8_get_shoot_not_found (r : ApiResponse) :
    (get_shoot r = Except.ok none ↔ r = ApiResponse.apiException 404) ∧
    (∀ code, code ≠ 404 → get_shoot (ApiResponse.apiException code) = Except.error code) ∧
    (∀ code, get_shoot r = Except.error code → code ≠ 404) := by
  refine ⟨?_, ?_, ?_⟩
  · cases r with
    | success s => simp [get_shoot]
    | apiException code =>
      by_cases hc : code = 404 <;> simp [get_shoot, hc]
  · intro code hc
    simp [get_shoot, hc]
  · intro code hcode
    cases r with
    | success s => simp [get_shoot] at hcode
    | apiException c =>
      by_cases hc : c = 404 <;> simp [get_shoot, hc] at hcode
      omega

/-- Witness for C8 at a 404 response and at a non-404 response. -/
theorem C8_get_shoot_not_found_witness :
    get_shoot (ApiResponse.apiException 404) = Except.ok none ∧
    get_shoot (ApiResponse.apiException 500) = Except.error 500 :=
  ⟨(C8_get_shoot_not_found (ApiResponse.apiException 404)).1.mpr rfl,
   (C8_get_shoot_not_found (ApiResponse.apiException 500)).2.1 500 (by decide)⟩

/-- C1 counterexample: on a resource whose status has a present "health"
field holding the empty string together with lastOperation.state
"Succeeded", the claim as stated demands the health value "" be returned
because the field is present; the code instead tests truthiness, skips the
falsy health value and returns the lastOperation state "Succeeded". -/
theorem C1_counterexample :
    c1Shoot.status = some ⟨some "", some ⟨some "Succeeded"⟩⟩ ∧
    check_shoot_health (some c1Shoot) = "Succeeded" ∧
    ("Succeeded" : String) ≠ "" :=
  ⟨rfl, rfl, by decide⟩

/-- C1 (amended): check_shoot_health follows the four-way precedence with the
first tier conditioned on a truthy health value: a present and nonempty
status.health is returned; else a present lastOperation yields its state;
else a status with neither yields the no-health-info sentinel; a fetch that
observed no resource yields the distinct unavailable sentinel. -/
theorem C1_health_precedence :
    (∀ (s : Shoot) (st : ShootStatus) (h : String), s.status = some st →
        st.health = some h → h ≠ "" → check_shoot_health (some s) = h) ∧
    (∀ (s : Shoot) (st : ShootStatus) (lo : LastOperation) (v : String),
        s.status = some st → (st.health = none ∨ st.health = some "") →
        st.lastOperation = some lo → lo.state = some v →
        check_shoot_health (some s) = v) ∧
    (∀ (s : Shoot) (st : ShootStatus), s.status = some st →
        (st.health = none ∨ st.health = some "") → st.lastOperation = none →
        check_shoot_health (some s) = "Status available but no health info") ∧
    check_shoot_health none = "No status available" ∧
    ("No status available" : String) ≠ "Status available but no health info" := by
  refine ⟨?_, ?_, ?_, rfl, by decide⟩
  · intro s st h hs hh hne
    obtain ⟨sv⟩ := s
    cases hs
    simp [check_shoot_health, hh, hne]
  · intro s st lo v hs hh hlo hv
    obtain ⟨sv⟩ := s
    cases hs
    cases hh with
    | inl h1 => simp [check_shoot_health, h1, hlo, hv]
    | inr h1 => simp [check_shoot_health, h1, hlo, hv]
  · intro s st hs hh hlo
    obtain ⟨sv⟩ := s
    cases hs
    cases hh with
    | inl h1 => simp [check_shoot_health, h1, hlo]
    | inr h1 => simp [check_shoot_health, h1, hlo]

/-- Witness for C1 (amended) at the spec's own example: health Green beats
lastOperation state Succeeded. -/
theorem C1_health_precedence_witness :
    check_shoot_health (some ⟨some ⟨some "Green", some ⟨some "Succeeded"⟩⟩⟩) = "Green" :=
  C1_health_precedence.1 ⟨some ⟨some "Green", some ⟨some "Succeeded"⟩⟩⟩
    ⟨some "Green", some ⟨some "Succeeded"⟩⟩ "Green" rfl rfl (by decide)

/-- C9: a present but falsy (empty string) health entry is skipped: the
result is exactly the result for the same status with the health entry
removed, namely the fall-through to lastOperation.state or the no-health
sentinel — the empty health value itself is never what is returned. -/
theorem C9_health_truthiness (s : Shoot) (st : ShootStatus)
    (hs : s.status = some st) (hh : st.health = some "") :
    check_shoot_health (some s) =
      check_shoot_health (some ⟨some ⟨none, st.lastOperation⟩⟩) ∧
    check_shoot_health (some s) =
      (match st.lastOperation with
       | some lo => lo.state.getD "Unknown"
       | none => "Status available but no health info") := by
  obtain ⟨sv⟩ := s
  cases hs
  cases hlo : st.lastOperation with
  | none => simp [check_shoot_health, hh, hlo]
  | some lo => simp [check_shoot_health, hh, hlo]

/-- Witness for C9 at a concrete resource with empty health and state
Succeeded. -/
theorem C9_health_truthiness_witness :
    check_shoot_health (some ⟨some ⟨some "", some ⟨some "Succeeded"⟩⟩⟩) =
      check_shoot_health (some ⟨some ⟨none, some ⟨some "Succeeded"⟩⟩⟩) :=
  (C9_health_truthiness ⟨some ⟨some "", some ⟨some "Succeeded"⟩⟩⟩
    ⟨some "", some ⟨some "Succeeded"⟩⟩ rfl rfl).1

/-- Characterisation of the iterations performed: for a positive interval,
poll k happens exactly when its start time k * interval is below timeout. -/
theorem numPolls_iteration (timeout interval k : Nat) (hpos : 0 < interval) :
    k < numPolls timeout interval ↔ k * interval < timeout := by
  unfold numPolls
  rw [show (k < (timeout + interval - 1) / interval) =
        (k + 1 ≤ (timeout + interval - 1) / interval) from rfl,
      Nat.le_div_iff_mul_le hpos, Nat.succ_mul]
  generalize k * interval = a
  omega

/-- Witness for the iteration characterisation at the default parameters. -/
theorem numPolls_iteration_witness : 2 * 10 < 300 ∧ 2 < numPolls 300 10 :=
  ⟨by decide, (numPolls_iteration 300 10 2 (by decide)).mpr (by decide)⟩

/-- Shifting a bounded existential past a first element that does not
satisfy the predicate. -/
theorem exists_lt_succ_shift (P : Nat → Prop) (n : Nat) (h0 : ¬ P 0) :
    (∃ j, j < n + 1 ∧ P j) ↔ ∃ j, j < n ∧ P (j + 1) := by
  constructor
  · rintro ⟨j, hj, hP⟩
    cases j with
    | zero => exact absurd hP h0
    | succ j => exact ⟨j, by omega, hP⟩
  · rintro ⟨j, hj, hP⟩
    exact ⟨j + 1, by omega, hP⟩

/-- The deletion loop reports deleted exactly when some iteration it performs
hits a 404 response. -/
theorem deletionLoop_deleted_iff (resp : Nat → ApiResponse) (k n : Nat) :
    deletionLoop resp k n = DeletionStatus.deleted ↔
      ∃ j, j < n ∧ resp (k + j) = ApiResponse.apiException 404 := by
  induction n generalizing k with
  | zero => simp [deletionLoop]
  | succ n ih =>
    rw [show n + 1 = Nat.succ n from rfl, deletionLoop]
    cases hr : resp k with
    | success s =>
      rw [ih (k + 1)]
      constructor
      · rintro ⟨j, hj, hP⟩
        exact ⟨j + 1, by omega,
          by rw [show k + (j + 1) = k + 1 + j from by omega]; exact hP⟩
      · rintro ⟨j, hj, hP⟩
        cases j with
        | zero => rw [Nat.add_zero] at hP; rw [hP] at hr; cases hr
        | succ j =>
          exact ⟨j, by omega,
            by rw [show k + 1 + j = k + (j + 1) from by omega]; exact hP⟩
    | apiException code =>
      dsimp only
      by_cases hc : code = 404
      · subst hc
        rw [if_pos rfl]
        constructor
        · intro _
          exact ⟨0, n.succ_pos, by rw [Nat.add_zero]; exact hr⟩
        · intro _
          rfl
      · rw [if_neg hc, ih (k + 1)]
        constructor
        · rintro ⟨j, hj, hP⟩
          exact ⟨j + 1, by omega,
            by rw [show k + (j + 1) = k + 1 + j from by omega]; exact hP⟩
        · rintro ⟨j, hj, hP⟩
          cases j with
          | zero =>
            rw [Nat.add_zero] at hP
            rw [hP] at hr
            exact absurd (ApiResponse.apiException.inj hr).symm hc
          | succ j =>
            exact ⟨j, by omega,
              by rw [show k + 1 + j = k + (j + 1) from by omega]; exact hP⟩

/-- C4: poll_shoot_deletion_status returns deleted exactly when some poll
within the timeout window hits a 404 response; otherwise — including when
non-404 API errors occur in between, which are only printed — it keeps
polling and returns in-progress at the timeout.  The embedding is total into
DeletionStatus: no response sequence makes the loop propagate an error. -/
theorem C4_poll_deletion (resp : Nat → ApiResponse) (timeout interval : Nat) :
    (poll_shoot_deletion_status resp timeout interval = DeletionStatus.deleted ↔
      ∃ k, k < numPolls timeout interval ∧ resp k = ApiResponse.apiException 404) ∧
    (poll_shoot_deletion_status resp timeout interval = DeletionStatus.inProgress ↔
      ∀ k, k < numPolls timeout interval → resp k ≠ ApiResponse.apiException 404) := by
  have h1 : poll_shoot_deletion_status resp timeout interval = DeletionStatus.deleted ↔
      ∃ k, k < numPolls timeout interval ∧ resp k = ApiResponse.apiException 404 := by
    simpa using deletionLoop_deleted_iff resp 0 (numPolls timeout interval)
  refine ⟨h1, ?_⟩
  have h2 : poll_shoot_deletion_status resp timeout interval = DeletionStatus.inProgress ↔
      ¬ poll_shoot_deletion_status resp timeout interval = DeletionStatus.deleted := by
    cases poll_shoot_deletion_status resp timeout interval <;> simp
  rw [h2, h1]
  push_neg
  rfl

/-- Witness for C4: with a flaky 500 mid-loop followed by a 404, the poll
reports deleted within the timeout. -/
theorem C4_poll_deletion_witness :
    poll_shoot_deletion_status deletionResp 30 10 = DeletionStatus.deleted :=
  (C4_poll_deletion deletionResp 30 10).1.mpr ⟨2, by decide, rfl⟩

/-- One step of the status loop, phrased through the observation
classifier. -/
theorem statusLoop_step (resp : Nat → ApiResponse) (k n : Nat) :
    statusLoop resp k (n + 1) =
      match statusObservation (resp k) with
      | Obs.raisedObs code => Except.error code
      | Obs.terminalSucceeded => Except.ok PollOutcome.succeeded
      | Obs.terminalFailed => Except.ok PollOutcome.failed
      | Obs.transientObs => statusLoop resp (k + 1) n := by
  rw [show n + 1 = Nat.succ n from rfl, statusLoop]
  unfold statusObservation
  cases hg : get_shoot (resp k) with
  | error code => rfl
  | ok shootOpt =>
    cases shootOpt with
    | none => rfl
    | some s =>
      dsimp only
      cases hst : s.status with
      | none => rfl
      | some st =>
        dsimp only
        cases hlo : st.lastOperation with
        | none => rfl
        | some lo =>
          dsimp only
          by_cases h1 : pyLower (lo.state.getD "Progressing") = "succeeded"
          · simp only [if_pos h1]
          · by_cases h2 : pyLower (lo.state.getD "Progressing") = "failed"
            · simp only [if_neg h1, if_pos h2]
            · simp only [if_neg h1, if_neg h2]

/-- The status loop yields a terminal outcome exactly when some performed
iteration observes the matching terminal state after only transient
observations.  Parametric in the terminal pair (observation, result). -/
theorem statusLoop_terminal_iff (resp : Nat → ApiResponse) (t : Obs)
    (res : PollOutcome)
    (hts : (t = Obs.terminalSucceeded ∧ res = PollOutcome.succeeded) ∨
           (t = Obs.terminalFailed ∧ res = PollOutcome.failed)) (n : Nat) :
    ∀ k, (statusLoop resp k n = Except.ok res ↔
      ∃ j, j < n ∧ statusObservation (resp (k + j)) = t ∧
        ∀ i, i < j → statusObservation (resp (k + i)) = Obs.transientObs) := by
  induction n with
  | zero =>
    intro k
    constructor
    · intro h
      exfalso
      have hres : PollOutcome.inProgress = res := by
        simpa [statusLoop] using h
      rcases hts with ⟨_, h2⟩ | ⟨_, h2⟩ <;> rw [h2] at hres <;> cases hres
    · rintro ⟨j, hj, _⟩
      exact absurd hj (by omega)
  | succ n ih =>
    intro k
    rw [statusLoop_step]
    cases ho : statusObservation (resp k) with
    | transientObs =>
      dsimp only
      rw [ih (k + 1)]
      constructor
      · rintro ⟨j, hj, hobs, hpre⟩
        refine ⟨j + 1, by omega, ?_, ?_⟩
        · rw [show k + (j + 1) = k + 1 + j from by omega]
          exact hobs
        · intro i hi
          cases i with
          | zero =>
            rw [Nat.add_zero]
            exact ho
          | succ i =>
            rw [show k + (i + 1) = k + 1 + i from by omega]
            exact hpre i (by omega)
      · rintro ⟨j, hj, hobs, hpre⟩
        cases j with
        | zero =>
          exfalso
          rw [Nat.add_zero, ho] at hobs
          rcases hts with ⟨h1, _⟩ | ⟨h1, _⟩ <;> rw [h1] at hobs <;> cases hobs
        | succ j =>
          refine ⟨j, by omega, ?_, ?_⟩
          · rw [show k + 1 + j = k + (j + 1) from by omega]
            exact hobs
          · intro i hi
            rw [show k + 1 + i = k + (i + 1) from by omega]
            exact hpre (i + 1) (by omega)
    | terminalSucceeded =>
      dsimp only
      rcases hts with ⟨h1, h2⟩ | ⟨h1, h2⟩
      · subst h1
        subst h2
        constructor
        · intro _
          exact ⟨0, n.succ_pos, by rw [Nat.add_zero]; exact ho,
            fun i hi => absurd hi (by omega)⟩
        · intro _
          rfl
      · subst h1
        subst h2
        constructor
        · intro h
          exact absurd h (by simp)
        · rintro ⟨j, hj, hobs, hpre⟩
          exfalso
          cases j with
          | zero =>
            rw [Nat.add_zero, ho] at hobs
            cases hobs
          | succ j =>
            have h0 := hpre 0 (by omega)
            rw [Nat.add_zero, ho] at h0
            cases h0
    | terminalFailed =>
      dsimp only
      rcases hts with ⟨h1, h2⟩ | ⟨h1, h2⟩
      · subst h1
        subst h2
        constructor
        · intro h
          exact absurd h (by simp)
        · rintro ⟨j, hj, hobs, hpre⟩
          exfalso
          cases j with
          | zero =>
            rw [Nat.add_zero, ho] at hobs
            cases hobs
          | succ j =>
            have h0 := hpre 0 (by omega)
            rw [Nat.add_zero, ho] at h0
            cases h0
      · subst h1
        subst h2
        constructor
        · intro _
          exact ⟨0, n.succ_pos, by rw [Nat.add_zero]; exact ho,
            fun i hi => absurd hi (by omega)⟩
        · intro _
          rfl
    | raisedObs code =>
      dsimp only
      constructor
      · intro h
        exfalso
        rcases hts with ⟨_, h2⟩ | ⟨_, h2⟩ <;> subst h2 <;> cases h
      · rintro ⟨j, hj, hobs, hpre⟩
        exfalso
        cases j with
        | zero =>
          rw [Nat.add_zero, ho] at hobs
          rcases hts with ⟨h1, _⟩ | ⟨h1, _⟩ <;> rw [h1] at hobs <;> cases hobs
        | succ j =>
          have h0 := hpre 0 (by omega)
          rw [Nat.add_zero, ho] at h0
          cases h0

/-- The status loop reports in-progress exactly when every iteration it could
perform observes a transient condition. -/
theorem statusLoop_inProgress_iff (resp : Nat → ApiResponse) (n : Nat) :
    ∀ k, (statusLoop resp k n = Except.ok PollOutcome.inProgress ↔
      ∀ j, j < n → statusObservation (resp (k + j)) = Obs.transientObs) := by
  induction n with
  | zero =>
    intro k
    constructor
    · intro _ j hj
      exact absurd hj (by omega)
    · intro _
      rfl
  | succ n ih =>
    intro k
    rw [statusLoop_step]
    cases ho : statusObservation (resp k) with
    | transientObs =>
      dsimp only
      rw [ih (k + 1)]
      constructor
      · intro hall j hj
        cases j with
        | zero =>
          rw [Nat.add_zero]
          exact ho
        | succ j =>
          rw [show k + (j + 1) = k + 1 + j from by omega]
          exact hall j (by omega)
      · intro hall j hj
        rw [show k + 1 + j = k + (j + 1) from by omega]
        exact hall (j + 1) (by omega)
    | terminalSucceeded =>
      dsimp only
      constructor
      · intro h
        exact absurd h (by simp)
      · intro hall
        have h0 := hall 0 n.succ_pos
        rw [Nat.add_zero, ho] at h0
        cases h0
    | terminalFailed =>
      dsimp only
      constructor
      · intro h
        exact absurd h (by simp)
      · intro hall
        have h0 := hall 0 n.succ_pos
        rw [Nat.add_zero, ho] at h0
        cases h0
    | raisedObs code =>
      dsimp only
      constructor
      · intro h
        cases h
      · intro hall
        have h0 := hall 0 n.succ_pos
        rw [Nat.add_zero, ho] at h0
        cases h0

/-- Shape of the observation on a successful response, by unfolding. -/
theorem statusObservation_success (s : Shoot) :
    statusObservation (ApiResponse.success s) =
      match s.status with
      | none => Obs.transientObs
      | some st =>
        match st.lastOperation with
        | none => Obs.transientObs
        | some lo =>
          if pyLower (lo.state.getD "Progressing") = "succeeded" then
            Obs.terminalSucceeded
          else if pyLower (lo.state.getD "Progressing") = "failed" then
            Obs.terminalFailed
          else Obs.transientObs := rfl

/-- Shape of the observation on an ApiException response: a 404 is turned
into none by get_shoot, hence transient; anything else is re-raised. -/
theorem statusObservation_apiException (c : Nat) :
    statusObservation (ApiResponse.apiException c) =
      if c = 404 then Obs.transientObs else Obs.raisedObs c := by
  unfold statusObservation get_shoot
  by_cases hc : c = 404 <;> simp [hc]

/-- A terminal-succeeded observation is exactly a resource whose lowercased
lastOperation state is "succeeded". -/
theorem statusObservation_succeeded_iff (r : ApiResponse) :
    statusObservation r = Obs.terminalSucceeded ↔ observesState r "succeeded" := by
  constructor
  · intro h
    cases r with
    | apiException code =>
      exfalso
      rw [statusObservation_apiException] at h
      by_cases hc : code = 404 <;> simp [hc] at h
    | success s =>
      rw [statusObservation_success] at h
      cases hst : s.status with
      | none =>
        exfalso
        simp only [hst] at h
        cases h
      | some st =>
        cases hlo : st.lastOperation with
        | none =>
          exfalso
          simp only [hst, hlo] at h
          cases h
        | some lo =>
          refine ⟨s, st, lo, rfl, hst, hlo, ?_⟩
          simp only [hst, hlo] at h
          by_cases h1 : pyLower (lo.state.getD "Progressing") = "succeeded"
          · exact h1
          · exfalso
            by_cases h2 : pyLower (lo.state.getD "Progressing") = "failed" <;>
              simp [h1, h2] at h
  · rintro ⟨s, st, lo, rfl, hst, hlo, hstate⟩
    rw [statusObservation_success]
    simp only [hst, hlo]
    rw [if_pos hstate]

/-- A terminal-failed observation is exactly a resource whose lowercased
lastOperation state is "failed". -/
theorem statusObservation_failed_iff (r : ApiResponse) :
    statusObservation r = Obs.terminalFailed ↔ observesState r "failed" := by
  constructor
  · intro h
    cases r with
    | apiException code =>
      exfalso
      rw [statusObservation_apiException] at h
      by_cases hc : code = 404 <;> simp [hc] at h
    | success s =>
      rw [statusObservation_success] at h
      cases hst : s.status with
      | none =>
        exfalso
        simp only [hst] at h
        cases h
      | some st =>
        cases hlo : st.lastOperation with
        | none =>
          exfalso
          simp only [hst, hlo] at h
          cases h
        | some lo =>
          refine ⟨s, st, lo, rfl, hst, hlo, ?_⟩
          simp only [hst, hlo] at h
          by_cases h2 : pyLower (lo.state.getD "Progressing") = "failed"
          · exact h2
          · exfalso
            by_cases h1 : pyLower (lo.state.getD "Progressing") = "succeeded" <;>
              simp [h1, h2] at h
  · rintro ⟨s, st, lo, rfl, hst, hlo, hstate⟩
    rw [statusObservation_success]
    simp only [hst, hlo]
    rw [if_neg (by rw [hstate]; decide), if_pos hstate]

/-- A raised observation pins the response down to a non-404 ApiException. -/
theorem statusObservation_raised (r : ApiResponse) (code : Nat)
    (h : statusObservation r = Obs.raisedObs code) :
    r = ApiResponse.apiException code ∧ code ≠ 404 := by
  cases r with
  | success s =>
    exfalso
    rw [statusObservation_success] at h
    cases hst : s.status with
    | none =>
      simp only [hst] at h
      cases h
    | some st =>
      cases hlo : st.lastOperation with
      | none =>
        simp only [hst, hlo] at h
        cases h
      | some lo =>
        simp only [hst, hlo] at h
        by_cases h1 : pyLower (lo.state.getD "Progressing") = "succeeded" <;>
          by_cases h2 : pyLower (lo.state.getD "Progressing") = "failed" <;>
          simp [h1, h2] at h
  | apiException c =>
    rw [statusObservation_apiException] at h
    by_cases hc : c = 404
    · exfalso
      rw [if_pos hc] at h
      cases h
    · rw [if_neg hc] at h
      have hcode : c = code := Obs.raisedObs.inj h
      subst hcode
      exact ⟨rfl, hc⟩

/-- Under responses on which get_shoot returns normally, a non-terminal
observation is exactly a transient one. -/
theorem not_terminal_iff_transient (r : ApiResponse)
    (hok : ∀ c, r = ApiResponse.apiException c → c = 404) :
    ¬ isTerminalObs r ↔ statusObservation r = Obs.transientObs := by
  unfold isTerminalObs
  cases hobs : statusObservation r with
  | transientObs => simp
  | terminalSucceeded => simp
  | terminalFailed => simp
  | raisedObs code =>
    exfalso
    obtain ⟨hr, hne⟩ := statusObservation_raised r code hobs
    exact hne (hok code hr)

/-- C5: whenever the fetches within the polling window raise no non-404
ApiException (get_shoot returns normally), poll_shoot_status returns True
(succeeded) exactly when some performed fetch — one preceded by no terminal
observation — yields a resource whose lastOperation state lowercases to
"succeeded", and False (failed) likewise for "failed"; it returns the
in-progress sentinel exactly when no terminal state is observed before the
timeout; and a fetched resource without status or lastOperation is
classified transient, so polling continues past it. -/
theorem C5_poll_status (resp : Nat → ApiResponse) (timeout interval : Nat)
    (hok : ∀ k, k < numPolls timeout interval →
      ∀ c, resp k = ApiResponse.apiException c → c = 404) :
    (poll_shoot_status resp timeout interval = Except.ok PollOutcome.succeeded ↔
      ∃ j, j < numPolls timeout interval ∧ observesState (resp j) "succeeded" ∧
        ∀ i, i < j → ¬ isTerminalObs (resp i)) ∧
    (poll_shoot_status resp timeout interval = Except.ok PollOutcome.failed ↔
      ∃ j, j < numPolls timeout interval ∧ observesState (resp j) "failed" ∧
        ∀ i, i < j → ¬ isTerminalObs (resp i)) ∧
    (poll_shoot_status resp timeout interval = Except.ok PollOutcome.inProgress ↔
      ∀ j, j < numPolls timeout interval → ¬ isTerminalObs (resp j)) ∧
    (∀ s : Shoot,
      (s.status = none ∨ ∃ st, s.status = some st ∧ st.lastOperation = none) →
      statusObservation (ApiResponse.success s) = Obs.transientObs) := by
  refine ⟨?_, ?_, ?_, ?_⟩
  · rw [poll_shoot_status,
      statusLoop_terminal_iff resp Obs.terminalSucceeded PollOutcome.succeeded
        (Or.inl ⟨rfl, rfl⟩) (numPolls timeout interval) 0]
    constructor
    · rintro ⟨j, hj, hobs, hpre⟩
      refine ⟨j, hj, (statusObservation_succeeded_iff _).mp (by simpa using hobs), ?_⟩
      intro i hi
      rw [not_terminal_iff_transient (resp i) (hok i (by omega))]
      simpa using hpre i hi
    · rintro ⟨j, hj, hobs, hpre⟩
      refine ⟨j, hj, by simpa using (statusObservation_succeeded_iff _).mpr hobs, ?_⟩
      intro i hi
      have hti := (not_terminal_iff_transient (resp i) (hok i (by omega))).mp (hpre i hi)
      simpa using hti
  · rw [poll_shoot_status,
      statusLoop_terminal_iff resp Obs.terminalFailed PollOutcome.failed
        (Or.inr ⟨rfl, rfl⟩) (numPolls timeout interval) 0]
    constructor
    · rintro ⟨j, hj, hobs, hpre⟩
      refine ⟨j, hj, (statusObservation_failed_iff _).mp (by simpa using hobs), ?_⟩
      intro i hi
      rw [not_terminal_iff_transient (resp i) (hok i (by omega))]
      simpa using hpre i hi
    · rintro ⟨j, hj, hobs, hpre⟩
      refine ⟨j, hj, by simpa using (statusObservation_failed_iff _).mpr hobs, ?_⟩
      intro i hi
      have hti := (not_terminal_iff_transient (resp i) (hok i (by omega))).mp (hpre i hi)
      simpa using hti
  · rw [poll_shoot_status,
      statusLoop_inProgress_iff resp (numPolls timeout interval) 0]
    constructor
    · intro hall j hj
      rw [not_terminal_iff_transient (resp j) (hok j hj)]
      simpa using hall j hj
    · intro hall j hj
      have htj := (not_terminal_iff_transient (resp j) (hok j hj)).mp (hall j hj)
      simpa using htj
  · intro s hs
    rw [statusObservation_success]
    rcases hs with h1 | ⟨st, h1, h2⟩
    · simp only [h1]
    · simp only [h1, h2]

/-- Witness for C5: the backend transitioning to "Succeeded" after two polls
makes the poll return True within a 50 second window at 10 second steps. -/
theorem C5_poll_status_witness :
    poll_shoot_status statusResp 50 10 = Except.ok PollOutcome.succeeded := by
  have hok : ∀ k, k < numPolls 50 10 →
      ∀ c, statusResp k = ApiResponse.apiException c → c = 404 := by
    intro k hk c hc
    exfalso
    unfold statusResp at hc
    by_cases h2 : k < 2 <;> simp [h2] at hc
  refine ((C5_poll_status statusResp 50 10 hok).1).mpr ⟨2, by decide, ?_, ?_⟩
  · exact ⟨⟨some ⟨none, some ⟨some "Succeeded"⟩⟩⟩, ⟨none, some ⟨some "Succeeded"⟩⟩,
      ⟨some "Succeeded"⟩, rfl, rfl, rfl, by decide⟩
  · intro i hi
    unfold isTerminalObs
    interval_cases i <;> decide

/-- C10: a fetched resource whose lastOperation has no "state" key is read by
poll_shoot_status exactly as if the state were "Progressing": its observation
equals that of the same status with state "Progressing", it is classified
transient — neither terminal nor an error — and a backend stuck in this shape
makes the poll run to its timeout and return the in-progress sentinel. -/
theorem C10_missing_state (s : Shoot) (st : ShootStatus) (lo : LastOperation)
    (hs : s.status = some st) (hlo : st.lastOperation = some lo)
    (hstate : lo.state = none) (timeout interval : Nat) :
    statusObservation (ApiResponse.success s) =
      statusObservation
        (ApiResponse.success ⟨some ⟨st.health, some ⟨some "Progressing"⟩⟩⟩) ∧
    statusObservation (ApiResponse.success s) = Obs.transientObs ∧
    poll_shoot_status (fun _ => ApiResponse.success s) timeout interval =
      Except.ok PollOutcome.inProgress := by
  have hobs : statusObservation (ApiResponse.success s) = Obs.transientObs := by
    rw [statusObservation_success]
    simp only [hs, hlo, hstate]
    rw [if_neg (by decide), if_neg (by decide)]
  have hobs2 : statusObservation
      (ApiResponse.success ⟨some ⟨st.health, some ⟨some "Progressing"⟩⟩⟩) =
      Obs.transientObs := by
    rw [statusObservation_success]
    dsimp only
    rw [if_neg (by decide), if_neg (by decide)]
  refine ⟨by rw [hobs, hobs2], hobs, ?_⟩
  rw [poll_shoot_status]
  exact (statusLoop_inProgress_iff (fun _ => ApiResponse.success s)
    (numPolls timeout interval) 0).mpr (fun j _ => hobs)

/-- Witness for C10 at a concrete resource with a stateless lastOperation. -/
theorem C10_missing_state_witness :
    poll_shoot_status (fun _ => ApiResponse.success ⟨some ⟨none, some ⟨none⟩⟩⟩) 30 10 =
      Except.ok PollOutcome.inProgress :=
  (C10_missing_state ⟨some ⟨none, some ⟨none⟩⟩⟩ ⟨none, some ⟨none⟩⟩ ⟨none⟩
    rfl rfl rfl 30 10).2.2

/-- C3: the delete request appears in the trace only when the confirmation
patch succeeded; when the patch fails the trace holds the patch call alone,
the delete request is never issued and the patch failure propagates; and
every trace starts with the confirmation patch. -/
theorem C3_delete_ordering (patchResult deleteResult : Except String Unit) :
    (∀ e, patchResult = Except.error e →
      (delete_shoot patchResult deleteResult).1 =
        [ApiCall.patchCall [(deletion_confirm_key, deletion_confirm_value)]] ∧
      ApiCall.deleteCall ∉ (delete_shoot patchResult deleteResult).1 ∧
      (delete_shoot patchResult deleteResult).2 = Except.error e) ∧
    (ApiCall.deleteCall ∈ (delete_shoot patchResult deleteResult).1 →
      patchResult = Except.ok ()) ∧
    (delete_shoot patchResult deleteResult).1.head? =
      some (ApiCall.patchCall [(deletion_confirm_key, deletion_confirm_value)]) := by
  refine ⟨?_, ?_, ?_⟩
  · intro e he
    subst he
    refine ⟨rfl, ?_, rfl⟩
    simp [delete_shoot]
  · intro _
    cases patchResult with
    | ok u => cases u; rfl
    | error e =>
      exfalso
      rename_i hmem
      simp [delete_shoot] at hmem
  · cases patchResult with
    | ok u => cases deleteResult <;> rfl
    | error e => rfl

/-- Witness for C3: when the confirmation patch is denied, only the patch
call is issued and its failure propagates. -/
theorem C3_delete_ordering_witness :
    (delete_shoot (Except.error "patch denied") (Except.ok ())).1 =
      [ApiCall.patchCall [(deletion_confirm_key, deletion_confirm_value)]] ∧
    ApiCall.deleteCall ∉ (delete_shoot (Except.error "patch denied") (Except.ok ())).1 ∧
    (delete_shoot (Except.error "patch denied") (Except.ok ())).2 =
      Except.error "patch denied" :=
  (C3_delete_ordering (Except.error "patch denied") (Except.ok ())).1 "patch denied" rfl

/-- C7 counterexample: another provider's manifest (shoot-openstack.yml) is
present in the templates directory while shoot-aws.yml and shoot.yml are
absent; the claim says that manifest is selected with a warning, but the
code, scanning only aws, azure and gcp, fails with template-not-found. -/
theorem C7_counterexample :
    c7FS.pathExists "base/deployments/cluster/templates/shoot-openstack.yml" = true ∧
    c7FS.pathExists "base/deployments/cluster/templates/shoot-aws.yml" = false ∧
    c7FS.pathExists "base/deployments/cluster/templates/shoot.yml" = false ∧
    select_shoot_template c7FS "base" (some "aws") =
      Except.error ("Could not find template for provider " ++ "aws") :=
  ⟨rfl, rfl, rfl, rfl⟩

/-- C7 (amended): given a determined (nonempty) provider and an existing
templates directory, select_shoot_template resolves, in order: the
provider-specific shoot-<provider>.yml in the templates directory; else the
generic shoot.yml in the same directory; else the first present manifest
among the fixed known providers aws, azure, gcp — not an arbitrary other
provider's; and only when all of those are absent does it fail with a
template-not-found error. -/
theorem C7_template_fallback (fs : FS) (base_dir provider : String)
    (hp : provider ≠ "")
    (hd1 : fs.pathExists (base_dir ++ "/deployments/cluster/templates") = true)
    (hd2 : fs.isDir (base_dir ++ "/deployments/cluster/templates") = true) :
    (fs.pathExists (base_dir ++ "/deployments/cluster/templates" ++ "/shoot-" ++
        provider ++ ".yml") = true →
      select_shoot_template fs base_dir (some provider) =
        Except.ok (base_dir ++ "/deployments/cluster/templates" ++ "/shoot-" ++
          provider ++ ".yml")) ∧
    (fs.pathExists (base_dir ++ "/deployments/cluster/templates" ++ "/shoot-" ++
        provider ++ ".yml") = false →
      fs.pathExists (base_dir ++ "/deployments/cluster/templates" ++
        "/shoot.yml") = true →
      select_shoot_template fs base_dir (some provider) =
        Except.ok (base_dir ++ "/deployments/cluster/templates" ++ "/shoot.yml")) ∧
    (fs.pathExists (base_dir ++ "/deployments/cluster/templates" ++ "/shoot-" ++
        provider ++ ".yml") = false →
      fs.pathExists (base_dir ++ "/deployments/cluster/templates" ++
        "/shoot.yml") = false →
      ∀ p, knownProviders.find?
          (fun q => fs.pathExists (base_dir ++ "/deployments/cluster/templates" ++
            "/shoot-" ++ q ++ ".yml")) = some p →
        select_shoot_template fs base_dir (some provider) =
          Except.ok (base_dir ++ "/deployments/cluster/templates" ++ "/shoot-" ++
            p ++ ".yml")) ∧
    (fs.pathExists (base_dir ++ "/deployments/cluster/templates" ++ "/shoot-" ++
        provider ++ ".yml") = false →
      fs.pathExists (base_dir ++ "/deployments/cluster/templates" ++
        "/shoot.yml") = false →
      (∀ p, p ∈ knownProviders →
        fs.pathExists (base_dir ++ "/deployments/cluster/templates" ++ "/shoot-" ++
          p ++ ".yml") = false) →
      select_shoot_template fs base_dir (some provider) =
        Except.error ("Could not find template for provider " ++ provider)) := by
  have hcond : (fs.pathExists (base_dir ++ "/deployments/cluster/templates") &&
      fs.isDir (base_dir ++ "/deployments/cluster/templates")) = true := by
    rw [hd1, hd2]
    rfl
  refine ⟨?_, ?_, ?_, ?_⟩
  · intro hspec
    unfold select_shoot_template
    dsimp only
    rw [if_neg hp, if_pos hcond, if_pos hspec]
  · intro hspec hgen
    unfold select_shoot_template
    dsimp only
    rw [if_neg hp, if_pos hcond, if_neg (by simp [hspec]), if_pos hgen]
  · intro hspec hgen p hfind
    unfold select_shoot_template
    dsimp only
    rw [if_neg hp, if_pos hcond, if_neg (by simp [hspec]),
      if_neg (by simp [hgen]), hfind]
  · intro hspec hgen hall
    have hnone : knownProviders.find?
        (fun q => fs.pathExists (base_dir ++ "/deployments/cluster/templates" ++
          "/shoot-" ++ q ++ ".yml")) = none := by
      rw [List.find?_eq_none]
      intro x hx
      simp [hall x hx]
    unfold select_shoot_template
    dsimp only
    rw [if_neg hp, if_pos hcond, if_neg (by simp [hspec]),
      if_neg (by simp [hgen]), hnone]

/-- Witness for C7 (amended): the provider-specific manifest is selected. -/
theorem C7_template_fallback_witness :
    select_shoot_template c7WitnessFS "base" (some "aws") =
      Except.ok ("base" ++ "/deployments/cluster/templates" ++ "/shoot-" ++
        "aws" ++ ".yml") :=
  (C7_template_fallback c7WitnessFS "base" "aws" (by decide) rfl rfl).1 rfl
